import Mathlib

set_option maxRecDepth 1000000

/-!
Verification of the sensor-data ingestion service (`app_main.py` and `main.py`).

The service stores sensor readings in a document store and answers queries.
The two numeric conversions of interest are performed in Python floating
point (IEEE-754 binary64):

* ingestion (`app_main.py` line 89, `main.py` lines 74/84/94):
  `datetime.utcfromtimestamp(timestamp / 1000)`, and
* query (`app_main.py` lines 162-167):
  `int((dt - epoch).total_seconds() * 1000)`.

Floating-point arithmetic is embedded exactly: a binary64 value is the
rational it denotes, and every Python float operation is modelled as the
exact rational result rounded to 53 significant bits with round-to-nearest,
ties-to-even (the IEEE default).  Overflow and subnormals are not modelled;
they are unreachable at timestamp magnitudes.  `datetime` values are
modelled by their total count of microseconds since the epoch, which is
exactly the resolution of Python's `datetime`.
-/

/-- Fuel-driven floor of the base-2 logarithm: `log2fuel f n = ⌊log₂ n⌋`
whenever `1 ≤ n < 2 ^ f`.  The fuel makes the definition structurally
recursive, hence evaluable inside the kernel. -/
def log2fuel : Nat → Nat → Nat
  | 0, _ => 0
  | f + 1, n => if n < 2 then 0 else log2fuel f (n / 2) + 1

/-- `⌊log₂ n⌋` for `1 ≤ n` (junk value `0` at `n = 0`). -/
def natLog2 (n : Nat) : Nat := log2fuel n n

/-- `2 ^ k` as a rational, for an integer exponent `k`. -/
def exp2 (k : Int) : ℚ :=
  if 0 ≤ k then ((2 ^ k.toNat : Nat) : ℚ) else 1 / ((2 ^ (-k).toNat : Nat) : ℚ)

/-- Round a rational to the nearest integer, ties to even. -/
def roundHalfEven (q : ℚ) : Int :=
  if q - ⌊q⌋ < 1 / 2 then ⌊q⌋
  else if 1 / 2 < q - ⌊q⌋ then ⌊q⌋ + 1
  else if ⌊q⌋ % 2 = 0 then ⌊q⌋ else ⌊q⌋ + 1

/-- Binade exponent of a positive rational: the unique `k` with
`2 ^ k ≤ q < 2 ^ (k + 1)`.  Computed from the bit lengths of numerator and
denominator, corrected by at most one. -/
def ilog2 (q : ℚ) : Int :=
  if q < exp2 ((natLog2 q.num.natAbs : Int) - (natLog2 q.den : Int)) then
    (natLog2 q.num.natAbs : Int) - (natLog2 q.den : Int) - 1
  else if exp2 ((natLog2 q.num.natAbs : Int) - (natLog2 q.den : Int) + 1) ≤ q then
    (natLog2 q.num.natAbs : Int) - (natLog2 q.den : Int) + 1
  else
    (natLog2 q.num.natAbs : Int) - (natLog2 q.den : Int)

/-- Round a positive rational to the nearest binary64 value (53-bit
significand, round-to-nearest, ties-to-even): scale into `[2^52, 2^53]`,
round to an integer significand, scale back. -/
def flPos (q : ℚ) : ℚ :=
  ((roundHalfEven (q * exp2 (52 - ilog2 q)) : ℚ)) * exp2 (ilog2 q - 52)

/-- IEEE-754 binary64 rounding (round-to-nearest, ties-to-even) of an exact
rational, in the normal range.  Every arithmetic operation the Python code
performs on floats is the exact result passed through `fl`. -/
def fl (q : ℚ) : ℚ :=
  if q = 0 then 0
  else if q < 0 then -flPos (-q)
  else flPos q

/-- Python `int(x)` on a float: truncation toward zero. -/
def pyTrunc (q : ℚ) : Int := if q < 0 then ⌈q⌉ else ⌊q⌋

/-- CPython `datetime.utcfromtimestamp(x)` for a binary64 argument `x`,
returned as total microseconds since 1970-01-01T00:00:00: CPython splits
`x` with `modf` (exact), multiplies the fractional part by `10^6` (one
float multiplication), rounds to an integer count of microseconds with
ties-to-even, and carries into the seconds on over- or underflow. -/
def utcfromtimestampUs (x : ℚ) : Int :=
  let intpart : Int := pyTrunc x
  let frac : ℚ := x - intpart
  let us : Int := roundHalfEven (fl (frac * 1000000))
  if 1000000 ≤ us then (intpart + 1) * 1000000 + (us - 1000000)
  else if us < 0 then (intpart - 1) * 1000000 + (us + 1000000)
  else intpart * 1000000 + us

/-- Stored timestamp of `app_main.py`'s `insert_sensor_data` (line 89):
`datetime.utcfromtimestamp(document["timestamp"] / 1000)`, as microseconds
since the epoch.  `t / 1000` is Python true division of integers, i.e. the
correctly rounded binary64 quotient. -/
def appMainStoredUs (t : Int) : Int := utcfromtimestampUs (fl ((t : ℚ) / 1000))

/-- Stored timestamp of `main.py`'s POST handlers (lines 74, 84, 94):
`datetime.utcfromtimestamp(document["timestamp"] / 1000)`, as microseconds
since the epoch. -/
def mainStoredUs (t : Int) : Int := utcfromtimestampUs (fl ((t : ℚ) / 1000))

/-- Query-side conversion of `get_device_data` (lines 162-167):
`int((dt - epoch).total_seconds() * 1000)` applied to a stored datetime of
`us` microseconds since the epoch.  `timedelta.total_seconds` divides the
exact integer count of microseconds by `10^6` in binary64; the result is
multiplied by `1000` in binary64 and truncated by `int`. -/
def timestampMsOfUs (us : Int) : Int := pyTrunc (fl (fl ((us : ℚ) / 1000000) * 1000))

/-! ## Data model (`app_main.py` lines 25-82, `main.py` lines 21-66)

Payload `values` fields declared `float` in the pydantic models are only
stored and returned, never computed with, so they are carried as exact
rationals. -/

/-- `TrafficValues` (`app_main.py` lines 31-37). -/
structure TrafficValues where
  peaton : Int
  bicicleta : Int
  carro : Int
  moto : Int
  bus : Int
  camion : Int
deriving DecidableEq

/-- `EnvironmentalValues` (`app_main.py` lines 39-51, `main.py` lines 26-38). -/
structure EnvironmentalValues where
  solarRadiationMax : Int
  solarRadiationMin : Int
  solarRadiationAvg : Int
  uvIndexMax : ℚ
  uvIndexMin : ℚ
  uvIndexAvg : ℚ
  temperatureMax : ℚ
  temperatureMin : ℚ
  temperatureAvg : ℚ
  humidityMax : ℚ
  humidityMin : ℚ
  humidityAvg : ℚ
deriving DecidableEq

/-- `WeatherValues` (`app_main.py` lines 53-58, `main.py` lines 40-45). -/
structure WeatherValues where
  rainTicks : ℚ
  windSpeedMax : Int
  windSpeedMin : Int
  windSpeedAvg : Int
  windDirectionAvg : Int
deriving DecidableEq

/-- `AirQualityValues` (`app_main.py` lines 60-69, `main.py` lines 47-56). -/
structure AirQualityValues where
  massPM2_5Max : ℚ
  massPM2_5Min : ℚ
  massPM2_5Avg : ℚ
  massPM10_0Max : ℚ
  massPM10_0Min : ℚ
  massPM10_0Avg : ℚ
  noiseMax : ℚ
  noiseMin : ℚ
  noiseAvg : ℚ
deriving DecidableEq

/-- The category-specific `values` bundle of a stored document. -/
inductive SensorValues where
  | traffic (v : TrafficValues)
  | environmental (v : EnvironmentalValues)
  | weather (v : WeatherValues)
  | airQuality (v : AirQualityValues)
deriving DecidableEq

/-- `TrafficData` (`app_main.py` lines 72-73; `BaseSensorData` flattened in). -/
structure TrafficData where
  deviceId : String
  timestamp : Int
  values : TrafficValues
deriving DecidableEq

/-- `EnvironmentalData` (`app_main.py` lines 75-76, `main.py` lines 59-60). -/
structure EnvironmentalData where
  deviceId : String
  timestamp : Int
  values : EnvironmentalValues
deriving DecidableEq

/-- `WeatherData` (`app_main.py` lines 78-79, `main.py` lines 62-63). -/
structure WeatherData where
  deviceId : String
  timestamp : Int
  values : WeatherValues
deriving DecidableEq

/-- `AirQualityData` (`app_main.py` lines 81-82, `main.py` lines 65-66). -/
structure AirQualityData where
  deviceId : String
  timestamp : Int
  values : AirQualityValues
deriving DecidableEq

/-- A document of the `sensor_data` collection.  `oid` models the `_id`
`ObjectId` the store generates at insert time; `timestampUs` is the stored
datetime as microseconds since the epoch (Python `datetime` resolution);
`data_type` is the category tag, present only when the inserting code adds
one. -/
structure Document where
  oid : Nat
  deviceId : String
  timestampUs : Int
  data_type : Option String
  values : SensorValues
deriving DecidableEq

/-- The JSON body `{"status": ..., "deviceId": ...}` returned by every POST
handler. -/
structure IngestAck where
  status : String
  deviceId : String
deriving DecidableEq

/-- HTTP status code and body of a successful POST response. -/
structure PostResponse where
  statusCode : Nat
  body : IngestAck
deriving DecidableEq

/-- `insert_sensor_data` (`app_main.py` lines 85-93): builds
`data.dict()`, overwrites `timestamp` with
`datetime.utcfromtimestamp(timestamp / 1000)`, adds `data_type`, inserts the
document, and returns the acknowledgement.  The store assigns the next
`ObjectId`. -/
def insert_sensor_data (store : List Document) (deviceId : String) (timestamp : Int)
    (values : SensorValues) (data_type : String) : List Document × IngestAck :=
  let document : Document :=
    { oid := store.length
      deviceId := deviceId
      timestampUs := appMainStoredUs timestamp
      data_type := some data_type
      values := values }
  (store ++ [document], { status := "success", deviceId := deviceId })

/-- `receive_traffic_data` (`app_main.py` lines 105-114): status code 201
from the decorator's `status_code=status.HTTP_201_CREATED`. -/
def receive_traffic_data (store : List Document) (data : TrafficData) :
    List Document × PostResponse :=
  let r := insert_sensor_data store data.deviceId data.timestamp (.traffic data.values) "traffic"
  (r.1, { statusCode := 201, body := r.2 })

/-- `receive_environmental_data` (`app_main.py` lines 116-125). -/
def receive_environmental_data (store : List Document) (data : EnvironmentalData) :
    List Document × PostResponse :=
  let r := insert_sensor_data store data.deviceId data.timestamp
    (.environmental data.values) "environmental"
  (r.1, { statusCode := 201, body := r.2 })

/-- `receive_weather_data` (`app_main.py` lines 127-136). -/
def receive_weather_data (store : List Document) (data : WeatherData) :
    List Document × PostResponse :=
  let r := insert_sensor_data store data.deviceId data.timestamp (.weather data.values) "weather"
  (r.1, { statusCode := 201, body := r.2 })

/-- `receive_airquality_data` (`app_main.py` lines 138-147). -/
def receive_airquality_data (store : List Document) (data : AirQualityData) :
    List Document × PostResponse :=
  let r := insert_sensor_data store data.deviceId data.timestamp
    (.airQuality data.values) "air_quality"
  (r.1, { statusCode := 201, body := r.2 })

/-- `main.py`'s `receive_environmental_data` (lines 70-78): inserts
`data.dict()` with the converted timestamp and no further fields — in
particular no category tag — and returns with FastAPI's default status
code 200 (the decorator carries no `status_code`). -/
def main_receive_environmental_data (store : List Document) (data : EnvironmentalData) :
    List Document × PostResponse :=
  let document : Document :=
    { oid := store.length
      deviceId := data.deviceId
      timestampUs := mainStoredUs data.timestamp
      data_type := none
      values := .environmental data.values }
  (store ++ [document],
    { statusCode := 200, body := { status := "success", deviceId := data.deviceId } })

/-- `main.py`'s `receive_weather_data` (lines 80-88). -/
def main_receive_weather_data (store : List Document) (data : WeatherData) :
    List Document × PostResponse :=
  let document : Document :=
    { oid := store.length
      deviceId := data.deviceId
      timestampUs := mainStoredUs data.timestamp
      data_type := none
      values := .weather data.values }
  (store ++ [document],
    { statusCode := 200, body := { status := "success", deviceId := data.deviceId } })

/-- `main.py`'s `receive_airquality_data` (lines 90-98). -/
def main_receive_airquality_data (store : List Document) (data : AirQualityData) :
    List Document × PostResponse :=
  let document : Document :=
    { oid := store.length
      deviceId := data.deviceId
      timestampUs := mainStoredUs data.timestamp
      data_type := none
      values := .airQuality data.values }
  (store ++ [document],
    { statusCode := 200, body := { status := "success", deviceId := data.deviceId } })

/-! ## The query handler (`app_main.py` lines 149-174) -/

/-- Exceptions that can be raised inside the `try` block of
`get_device_data`: the explicit `HTTPException` and Motor's `ValueError`
for a negative `to_list` length. -/
inductive PyExc where
  | httpException (statusCode : Nat) (detail : String)
  | valueError (msg : String)
deriving DecidableEq

/-- Python `str(e)` for the exceptions above.  Starlette's
`HTTPException.__str__` is the formatted status code, a colon-space, then
the detail. -/
def pyExcStr : PyExc → String
  | .httpException c d => toString c ++ ": " ++ d
  | .valueError m => m

/-- A 4xx/5xx response: status code and `detail` body. -/
structure ErrorResponse where
  statusCode : Nat
  detail : String
deriving DecidableEq

/-- A record as returned by `get_device_data`: the loop at lines 163-167
replaces `_id` by `str(item["_id"])` and `timestamp` by the integer
millisecond value. -/
structure OutRecord where
  idStr : String
  deviceId : String
  timestamp : Int
  data_type : Option String
  values : SensorValues
deriving DecidableEq

/-- The per-item mutation of the conversion loop (lines 163-167). -/
def convertItem (d : Document) : OutRecord :=
  { idStr := toString d.oid
    deviceId := d.deviceId
    timestamp := timestampMsOfUs d.timestampUs
    data_type := d.data_type
    values := d.values }

/-- `collection.find({"deviceId": deviceId})`. -/
def mongoFind (store : List Document) (deviceId : String) : List Document :=
  store.filter (fun d => d.deviceId = deviceId)

/-- `.sort("timestamp", -1)`: order by descending stored timestamp. -/
def mongoSortTimestampDesc (l : List Document) : List Document :=
  List.insertionSort (fun a b => b.timestampUs ≤ a.timestampUs) l

/-- `.limit(limit)` (MongoDB semantics): `0` means no limit, a negative
value is a hard limit of the absolute value. -/
def mongoLimit (limit : Int) (l : List Document) : List Document :=
  if limit = 0 then l else l.take limit.natAbs

/-- Motor's `cursor.to_list(length=limit)`: raises `ValueError` on a
negative length, otherwise materializes at most `length` documents. -/
def toListLen (length : Int) (l : List Document) : Except PyExc (List Document) :=
  if length < 0 then .error (.valueError "length must be non-negative")
  else .ok (l.take length.toNat)

/-- The body of the `try` block of `get_device_data` (lines 153-169):
find, sort, limit (the `cursor` of line 153), materialize with
`to_list(length=limit)`, raise 404 on an empty result, convert. -/
def get_device_data_try (store : List Document) (deviceId : String) (limit : Int) :
    Except PyExc (List OutRecord) :=
  match toListLen limit (mongoLimit limit (mongoSortTimestampDesc (mongoFind store deviceId))) with
  | .error e => .error e
  | .ok results =>
    if results.isEmpty then .error (.httpException 404 "Dispositivo no encontrado")
    else .ok (results.map convertItem)

/-- `get_device_data` (lines 149-174).  The `except Exception as e` clause
catches every exception raised in the `try` block — `HTTPException`
subclasses `Exception`, so the explicit 404 is caught too — and re-raises
`HTTPException(500, str(e))`. -/
def get_device_data (store : List Document) (deviceId : String) (limit : Int) :
    Except ErrorResponse (List OutRecord) :=
  match get_device_data_try store deviceId limit with
  | .ok r => .ok r
  | .error e => .error { statusCode := 500, detail := pyExcStr e }

/-- `get_device_data` with the `limit` query parameter omitted: the
signature at line 150 declares `limit: int = 100`. -/
def get_device_data_default (store : List Document) (deviceId : String) :
    Except ErrorResponse (List OutRecord) :=
  get_device_data store deviceId 100

/-! ## Request sequences -/

/-- One HTTP request against either module. -/
inductive Op where
  | postTraffic (data : TrafficData)
  | postEnvironmental (data : EnvironmentalData)
  | postWeather (data : WeatherData)
  | postAirQuality (data : AirQualityData)
  | mainPostEnvironmental (data : EnvironmentalData)
  | mainPostWeather (data : WeatherData)
  | mainPostAirQuality (data : AirQualityData)
  | getData (deviceId : String) (limit : Int)

/-- Effect of one request on the collection.  The query handler issues no
write, so `getData` leaves the store unchanged. -/
def stepStore (store : List Document) : Op → List Document
  | .postTraffic d => (receive_traffic_data store d).1
  | .postEnvironmental d => (receive_environmental_data store d).1
  | .postWeather d => (receive_weather_data store d).1
  | .postAirQuality d => (receive_airquality_data store d).1
  | .mainPostEnvironmental d => (main_receive_environmental_data store d).1
  | .mainPostWeather d => (main_receive_weather_data store d).1
  | .mainPostAirQuality d => (main_receive_airquality_data store d).1
  | .getData _ _ => store

/-- Run a sequence of requests. -/
def runOps (store : List Document) : List Op → List Document
  | [] => store
  | op :: ops => runOps (stepStore store op) ops

/-! ## Concrete fixtures used by witnesses and counterexamples -/

/-- A valid traffic payload whose timestamp is 68662875446 ms
(1972-03-05T17:01:15.446Z). -/
def c1Payload : TrafficData :=
  { deviceId := "dev-1"
    timestamp := 68662875446
    values := { peaton := 1, bicicleta := 0, carro := 2, moto := 0, bus := 0, camion := 0 } }

/-- A stored document of device `dev-1` at 5 s past the epoch. -/
def c3DocA : Document :=
  { oid := 0
    deviceId := "dev-1"
    timestampUs := 5000000
    data_type := some "traffic"
    values := .traffic { peaton := 1, bicicleta := 0, carro := 0, moto := 0, bus := 0, camion := 0 } }

/-- A second document of the same device with the same timestamp. -/
def c3DocB : Document := { c3DocA with oid := 1 }

/-- A valid environmental payload. -/
def c4Payload : EnvironmentalData :=
  { deviceId := "dev-2"
    timestamp := 1700000000000
    values :=
      { solarRadiationMax := 900, solarRadiationMin := 100, solarRadiationAvg := 500
        uvIndexMax := 7, uvIndexMin := 1, uvIndexAvg := 4
        temperatureMax := 31, temperatureMin := 19, temperatureAvg := 25
        humidityMax := 80, humidityMin := 40, humidityAvg := 60 } }

/-- A valid weather payload. -/
def c5Payload : WeatherData :=
  { deviceId := "dev-3"
    timestamp := 1700000000000
    values :=
      { rainTicks := 3, windSpeedMax := 20, windSpeedMin := 2
        windSpeedAvg := 10, windDirectionAvg := 180 } }

/-- A stored document of device `dev-4` at 2 s past the epoch. -/
def c8Doc : Document :=
  { oid := 7
    deviceId := "dev-4"
    timestampUs := 2000000
    data_type := none
    values := .weather { rainTicks := 0, windSpeedMax := 5, windSpeedMin := 1
                         windSpeedAvg := 3, windDirectionAvg := 90 } }

/-! ## Facts about the binary64 model -/

theorem log2fuel_bounds : ∀ (f n : Nat), 1 ≤ n → n < 2 ^ f →
    2 ^ log2fuel f n ≤ n ∧ n < 2 ^ (log2fuel f n + 1) := by
  intro f
  induction f with
  | zero =>
    intro n h1 h2
    simp only [pow_zero] at h2
    omega
  | succ f ih =>
    intro n h1 h2
    by_cases hn : n < 2
    · simp only [log2fuel, if_pos hn, pow_zero, pow_one]
      omega
    · have hpow : (2 : Nat) ^ (f + 1) = 2 * 2 ^ f := by rw [pow_succ]; ring
      have hd2 : n / 2 < 2 ^ f := by omega
      obtain ⟨l, r⟩ := ih (n / 2) (by omega) hd2
      simp only [log2fuel, if_neg hn]
      have e1 : (2 : Nat) ^ (log2fuel f (n / 2) + 1) = 2 * 2 ^ log2fuel f (n / 2) := by
        rw [pow_succ]; ring
      have e2 : (2 : Nat) ^ (log2fuel f (n / 2) + 1 + 1) =
          2 * 2 ^ (log2fuel f (n / 2) + 1) := by
        rw [pow_succ]; ring
      omega

theorem natLog2_bounds {n : Nat} (h : 1 ≤ n) :
    2 ^ natLog2 n ≤ n ∧ n < 2 ^ (natLog2 n + 1) :=
  log2fuel_bounds n n h (Nat.lt_two_pow n)

theorem exp2_eq_zpow (k : Int) : exp2 k = (2 : ℚ) ^ k := by
  unfold exp2
  by_cases h : 0 ≤ k
  · rw [if_pos h, Nat.cast_pow, ← zpow_natCast, Int.toNat_of_nonneg h]
    norm_num
  · rw [if_neg h, Nat.cast_pow]
    set n := (-k).toNat with hn
    have hk : k = -(n : ℤ) := by omega
    rw [hk, zpow_neg, zpow_natCast, one_div]
    norm_num

theorem exp2_pos (k : Int) : 0 < exp2 k := by
  rw [exp2_eq_zpow]; exact zpow_pos (by norm_num) k

theorem exp2_add (a b : Int) : exp2 (a + b) = exp2 a * exp2 b := by
  rw [exp2_eq_zpow, exp2_eq_zpow, exp2_eq_zpow]
  exact zpow_add₀ (by norm_num) a b

theorem exp2_le_exp2 {a b : Int} (h : a ≤ b) : exp2 a ≤ exp2 b := by
  rw [exp2_eq_zpow, exp2_eq_zpow]
  exact zpow_le_zpow_right₀ (by norm_num) h

theorem exp2_natCast (n : Nat) : exp2 (n : Int) = ((2 : ℚ)) ^ n := by
  rw [exp2_eq_zpow, zpow_natCast]

theorem roundHalfEven_intCast (n : Int) : roundHalfEven (n : ℚ) = n := by
  unfold roundHalfEven
  rw [Int.floor_intCast]
  norm_num

theorem floor_le_roundHalfEven (q : ℚ) : ⌊q⌋ ≤ roundHalfEven q := by
  unfold roundHalfEven
  split_ifs <;> omega

theorem roundHalfEven_le_floor_add_one (q : ℚ) : roundHalfEven q ≤ ⌊q⌋ + 1 := by
  unfold roundHalfEven
  split_ifs <;> omega

theorem roundHalfEven_mono {q r : ℚ} (h : q ≤ r) : roundHalfEven q ≤ roundHalfEven r := by
  rcases lt_or_eq_of_le (Int.floor_mono h) with hf | hf
  · calc roundHalfEven q ≤ ⌊q⌋ + 1 := roundHalfEven_le_floor_add_one q
      _ ≤ ⌊r⌋ := by omega
      _ ≤ roundHalfEven r := floor_le_roundHalfEven r
  · unfold roundHalfEven
    rw [← hf]
    have h1 : q - (⌊q⌋ : ℚ) ≤ r - (⌊q⌋ : ℚ) := by linarith
    split_ifs <;> first | omega | linarith

theorem ilog2_window {q : ℚ} (hq : 0 < q) :
    exp2 ((natLog2 q.num.natAbs : Int) - (natLog2 q.den : Int) - 1) < q ∧
    q < exp2 ((natLog2 q.num.natAbs : Int) - (natLog2 q.den : Int) + 1) := by
  have hnum : 0 < q.num := Rat.num_pos.mpr hq
  have hden : 0 < q.den := q.den_pos
  obtain ⟨n1, n2⟩ := natLog2_bounds (n := q.num.natAbs) (by omega)
  obtain ⟨d1, d2⟩ := natLog2_bounds (n := q.den) (by omega)
  set a := natLog2 q.num.natAbs with ha
  set b := natLog2 q.den with hb
  have hdenQ : (0 : ℚ) < (q.den : ℚ) := by exact_mod_cast hden
  have hqeq : q = (q.num.natAbs : ℚ) / (q.den : ℚ) := by
    have hcast : ((q.num.natAbs : ℕ) : ℚ) = ((q.num : ℤ) : ℚ) := by
      rw [← Int.cast_natCast, Int.natAbs_of_nonneg (le_of_lt hnum)]
    rw [hcast, Rat.num_div_den]
  have hn1 : exp2 (a : Int) ≤ (q.num.natAbs : ℚ) := by
    rw [exp2_natCast]
    exact_mod_cast n1
  have hn2 : (q.num.natAbs : ℚ) < exp2 ((a : Int) + 1) := by
    rw [show ((a : Int) + 1) = ((a + 1 : ℕ) : Int) by push_cast; ring, exp2_natCast]
    exact_mod_cast n2
  have hd1 : exp2 (b : Int) ≤ (q.den : ℚ) := by
    rw [exp2_natCast]
    exact_mod_cast d1
  have hd2 : (q.den : ℚ) < exp2 ((b : Int) + 1) := by
    rw [show ((b : Int) + 1) = ((b + 1 : ℕ) : Int) by push_cast; ring, exp2_natCast]
    exact_mod_cast d2
  constructor
  · rw [hqeq, lt_div_iff₀ hdenQ]
    calc exp2 ((a : Int) - b - 1) * (q.den : ℚ)
        < exp2 ((a : Int) - b - 1) * exp2 ((b : Int) + 1) :=
          mul_lt_mul_of_pos_left hd2 (exp2_pos _)
      _ = exp2 (a : Int) := by
          rw [← exp2_add, show ((a : Int) - b - 1) + ((b : Int) + 1) = (a : Int) by ring]
      _ ≤ (q.num.natAbs : ℚ) := hn1
  · rw [hqeq, div_lt_iff₀ hdenQ]
    calc (q.num.natAbs : ℚ) < exp2 ((a : Int) + 1) := hn2
      _ = exp2 ((a : Int) - b + 1) * exp2 (b : Int) := by
          rw [← exp2_add, show ((a : Int) - b + 1) + (b : Int) = (a : Int) + 1 by ring]
      _ ≤ exp2 ((a : Int) - b + 1) * (q.den : ℚ) :=
          mul_le_mul_of_nonneg_left hd1 (le_of_lt (exp2_pos _))

theorem ilog2_bracket {q : ℚ} (hq : 0 < q) :
    exp2 (ilog2 q) ≤ q ∧ q < exp2 (ilog2 q + 1) := by
  obtain ⟨w1, w2⟩ := ilog2_window hq
  unfold ilog2
  split_ifs with h1 h2
  · refine ⟨le_of_lt w1, ?_⟩
    rw [show (natLog2 q.num.natAbs : Int) - (natLog2 q.den : Int) - 1 + 1 =
        (natLog2 q.num.natAbs : Int) - (natLog2 q.den : Int) by ring]
    exact h1
  · exact absurd h2 (not_le.mpr w2)
  · exact ⟨le_of_not_lt h1, lt_of_not_le h2⟩

theorem flPos_bounds {q : ℚ} (hq : 0 < q) :
    exp2 (ilog2 q) ≤ flPos q ∧ flPos q ≤ exp2 (ilog2 q + 1) := by
  obtain ⟨b1, b2⟩ := ilog2_bracket hq
  have h52 : exp2 (52 : Int) = ((2 ^ 52 : ℤ) : ℚ) := by
    rw [show ((52 : ℤ)) = ((52 : ℕ) : ℤ) by norm_num, exp2_natCast]
    push_cast
    ring
  have h53 : exp2 (53 : Int) = ((2 ^ 53 : ℤ) : ℚ) := by
    rw [show ((53 : ℤ)) = ((53 : ℕ) : ℤ) by norm_num, exp2_natCast]
    push_cast
    ring
  have hx1 : exp2 (52 : Int) ≤ q * exp2 (52 - ilog2 q) := by
    calc exp2 (52 : Int) = exp2 (ilog2 q) * exp2 (52 - ilog2 q) := by
          rw [← exp2_add, show ilog2 q + (52 - ilog2 q) = (52 : ℤ) by ring]
      _ ≤ q * exp2 (52 - ilog2 q) :=
          mul_le_mul_of_nonneg_right b1 (le_of_lt (exp2_pos _))
  have hx2 : q * exp2 (52 - ilog2 q) < exp2 (53 : Int) := by
    calc q * exp2 (52 - ilog2 q) < exp2 (ilog2 q + 1) * exp2 (52 - ilog2 q) :=
          mul_lt_mul_of_pos_right b2 (exp2_pos _)
      _ = exp2 (53 : Int) := by
          rw [← exp2_add, show ilog2 q + 1 + (52 - ilog2 q) = (53 : ℤ) by ring]
  have hm1 : (2 : Int) ^ 52 ≤ roundHalfEven (q * exp2 (52 - ilog2 q)) := by
    calc (2 : Int) ^ 52 ≤ ⌊q * exp2 (52 - ilog2 q)⌋ := by
          rw [Int.le_floor]
          rw [h52] at hx1
          exact hx1
      _ ≤ roundHalfEven (q * exp2 (52 - ilog2 q)) := floor_le_roundHalfEven _
  have hm2 : roundHalfEven (q * exp2 (52 - ilog2 q)) ≤ (2 : Int) ^ 53 := by
    have hfl : ⌊q * exp2 (52 - ilog2 q)⌋ < (2 : Int) ^ 53 := by
      rw [Int.floor_lt]
      rw [h53] at hx2
      exact hx2
    calc roundHalfEven (q * exp2 (52 - ilog2 q)) ≤ ⌊q * exp2 (52 - ilog2 q)⌋ + 1 :=
          roundHalfEven_le_floor_add_one _
      _ ≤ (2 : Int) ^ 53 := by omega
  constructor
  · unfold flPos
    calc exp2 (ilog2 q) = exp2 (52 : Int) * exp2 (ilog2 q - 52) := by
          rw [← exp2_add, show (52 : ℤ) + (ilog2 q - 52) = ilog2 q by ring]
      _ ≤ ((roundHalfEven (q * exp2 (52 - ilog2 q)) : ℤ) : ℚ) * exp2 (ilog2 q - 52) := by
          refine mul_le_mul_of_nonneg_right ?_ (le_of_lt (exp2_pos _))
          rw [h52]
          exact_mod_cast hm1
  · unfold flPos
    calc ((roundHalfEven (q * exp2 (52 - ilog2 q)) : ℤ) : ℚ) * exp2 (ilog2 q - 52)
        ≤ exp2 (53 : Int) * exp2 (ilog2 q - 52) := by
          refine mul_le_mul_of_nonneg_right ?_ (le_of_lt (exp2_pos _))
          rw [h53]
          exact_mod_cast hm2
      _ = exp2 (ilog2 q + 1) := by
          rw [← exp2_add, show (53 : ℤ) + (ilog2 q - 52) = ilog2 q + 1 by ring]

theorem flPos_nonneg {q : ℚ} (hq : 0 < q) : 0 ≤ flPos q :=
  le_trans (le_of_lt (exp2_pos _)) (flPos_bounds hq).1

theorem flPos_mono {q r : ℚ} (hq : 0 < q) (h : q ≤ r) : flPos q ≤ flPos r := by
  have hr : 0 < r := lt_of_lt_of_le hq h
  have hbq := ilog2_bracket hq
  have hbr := ilog2_bracket hr
  have hkk : ilog2 q ≤ ilog2 r := by
    by_contra hc
    push_neg at hc
    have h1 : exp2 (ilog2 r + 1) ≤ exp2 (ilog2 q) := exp2_le_exp2 (by omega)
    have h2 : exp2 (ilog2 q) ≤ q := hbq.1
    have h3 : r < exp2 (ilog2 r + 1) := hbr.2
    linarith
  rcases eq_or_lt_of_le hkk with he | hl
  · unfold flPos
    rw [← he]
    have hx : q * exp2 (52 - ilog2 q) ≤ r * exp2 (52 - ilog2 q) :=
      mul_le_mul_of_nonneg_right h (le_of_lt (exp2_pos _))
    have hm : roundHalfEven (q * exp2 (52 - ilog2 q)) ≤
        roundHalfEven (r * exp2 (52 - ilog2 q)) := roundHalfEven_mono hx
    exact mul_le_mul_of_nonneg_right (by exact_mod_cast hm) (le_of_lt (exp2_pos _))
  · calc flPos q ≤ exp2 (ilog2 q + 1) := (flPos_bounds hq).2
      _ ≤ exp2 (ilog2 r) := exp2_le_exp2 (by omega)
      _ ≤ flPos r := (flPos_bounds hr).1

theorem fl_mono {q r : ℚ} (h : q ≤ r) : fl q ≤ fl r := by
  rcases lt_trichotomy q 0 with hq | hq | hq
  · rcases lt_trichotomy r 0 with hr | hr | hr
    · simp only [fl, if_neg (ne_of_lt hq), if_pos hq, if_neg (ne_of_lt hr), if_pos hr]
      have hmono : flPos (-r) ≤ flPos (-q) := flPos_mono (by linarith) (by linarith)
      linarith
    · subst hr
      have h0 : fl (0 : ℚ) = 0 := by unfold fl; rw [if_pos rfl]
      rw [h0]
      simp only [fl, if_neg (ne_of_lt hq), if_pos hq]
      have := flPos_nonneg (q := -q) (by linarith)
      linarith
    · simp only [fl, if_neg (ne_of_lt hq), if_pos hq, if_neg (ne_of_gt hr),
        if_neg (not_lt.mpr (le_of_lt hr))]
      have h1 := flPos_nonneg (q := -q) (by linarith)
      have h2 := flPos_nonneg hr
      linarith
  · subst hq
    rcases eq_or_lt_of_le h with hr | hr
    · rw [← hr]
    · simp only [fl, if_pos rfl, if_neg (ne_of_gt hr), if_neg (not_lt.mpr (le_of_lt hr))]
      exact flPos_nonneg hr
  · have hr : 0 < r := lt_of_lt_of_le hq h
    simp only [fl, if_neg (ne_of_gt hq), if_neg (not_lt.mpr (le_of_lt hq)),
      if_neg (ne_of_gt hr), if_neg (not_lt.mpr (le_of_lt hr))]
    exact flPos_mono hq h

theorem pyTrunc_mono {q r : ℚ} (h : q ≤ r) : pyTrunc q ≤ pyTrunc r := by
  unfold pyTrunc
  split_ifs with h1 h2 h2
  · exact Int.ceil_mono h
  · calc ⌈q⌉ ≤ ⌈(0 : ℚ)⌉ := Int.ceil_mono (le_of_lt h1)
      _ = 0 := by simp
      _ ≤ ⌊r⌋ := Int.floor_nonneg.mpr (not_lt.mp h2)
  · exact absurd (lt_of_le_of_lt h h2) h1
  · exact Int.floor_mono h

theorem timestampMsOfUs_mono {us vs : Int} (h : us ≤ vs) :
    timestampMsOfUs us ≤ timestampMsOfUs vs := by
  unfold timestampMsOfUs
  apply pyTrunc_mono
  apply fl_mono
  have h1 : ((us : ℚ)) / 1000000 ≤ (vs : ℚ) / 1000000 := by
    have hc : (us : ℚ) ≤ (vs : ℚ) := by exact_mod_cast h
    linarith
  exact mul_le_mul_of_nonneg_right (fl_mono h1) (by norm_num)

/-! ## Facts about the query path -/

theorem toListLen_neg {limit : Int} (h : limit < 0) (l : List Document) :
    toListLen limit l = .error (.valueError "length must be non-negative") := by
  unfold toListLen
  rw [if_pos h]

theorem toListLen_nonneg {limit : Int} (h : ¬ limit < 0) (l : List Document) :
    toListLen limit l = .ok (l.take limit.toNat) := by
  unfold toListLen
  rw [if_neg h]

theorem get_device_data_try_of_neg {store : List Document} {deviceId : String} {limit : Int}
    (h : limit < 0) :
    get_device_data_try store deviceId limit =
      .error (.valueError "length must be non-negative") := by
  unfold get_device_data_try
  rw [toListLen_neg h]

theorem get_device_data_try_of_nonneg {store : List Document} {deviceId : String} {limit : Int}
    (h : ¬ limit < 0) :
    get_device_data_try store deviceId limit =
      if ((mongoLimit limit (mongoSortTimestampDesc (mongoFind store deviceId))).take
          limit.toNat).isEmpty then
        .error (.httpException 404 "Dispositivo no encontrado")
      else
        .ok (((mongoLimit limit (mongoSortTimestampDesc (mongoFind store deviceId))).take
          limit.toNat).map convertItem) := by
  unfold get_device_data_try
  rw [toListLen_nonneg h]

/-- A successful `get_device_data` response is exactly the converted image
of the found-sorted-limited document list, and requires `limit` to be
non-negative. -/
theorem get_device_data_try_ok {store : List Document} {deviceId : String} {limit : Int}
    {rs : List OutRecord} (h : get_device_data_try store deviceId limit = .ok rs) :
    0 ≤ limit ∧
    rs = ((mongoLimit limit (mongoSortTimestampDesc (mongoFind store deviceId))).take
      limit.toNat).map convertItem := by
  by_cases hneg : limit < 0
  · rw [get_device_data_try_of_neg hneg] at h
    exact absurd h (by simp)
  · rw [get_device_data_try_of_nonneg hneg] at h
    by_cases he : ((mongoLimit limit (mongoSortTimestampDesc (mongoFind store deviceId))).take
        limit.toNat).isEmpty
    · rw [if_pos he] at h
      exact absurd h (by simp)
    · rw [if_neg he] at h
      injection h with h2
      exact ⟨not_lt.mp hneg, h2.symm⟩

theorem get_device_data_ok {store : List Document} {deviceId : String} {limit : Int}
    {rs : List OutRecord} (h : get_device_data store deviceId limit = .ok rs) :
    0 ≤ limit ∧
    rs = ((mongoLimit limit (mongoSortTimestampDesc (mongoFind store deviceId))).take
      limit.toNat).map convertItem := by
  unfold get_device_data at h
  cases hT : get_device_data_try store deviceId limit with
  | ok r =>
    rw [hT] at h
    injection h with h2
    subst h2
    exact get_device_data_try_ok hT
  | error e =>
    rw [hT] at h
    exact absurd h (by simp)

theorem mongoSort_sorted (l : List Document) :
    List.Pairwise (fun a b => b.timestampUs ≤ a.timestampUs) (mongoSortTimestampDesc l) := by
  haveI ht : IsTotal Document (fun a b => b.timestampUs ≤ a.timestampUs) :=
    ⟨fun a b => Int.le_total b.timestampUs a.timestampUs⟩
  haveI htr : IsTrans Document (fun a b => b.timestampUs ≤ a.timestampUs) :=
    ⟨fun _ _ _ hab hbc => le_trans hbc hab⟩
  exact List.sorted_insertionSort _ l

theorem mongoLimit_sublist (limit : Int) (l : List Document) :
    (mongoLimit limit l).Sublist l := by
  unfold mongoLimit
  split_ifs
  · exact List.Sublist.refl l
  · exact List.take_sublist _ l

theorem stepStore_appends (store : List Document) (op : Op) :
    ∃ tail, stepStore store op = store ++ tail := by
  cases op with
  | postTraffic d => exact ⟨_, rfl⟩
  | postEnvironmental d => exact ⟨_, rfl⟩
  | postWeather d => exact ⟨_, rfl⟩
  | postAirQuality d => exact ⟨_, rfl⟩
  | mainPostEnvironmental d => exact ⟨_, rfl⟩
  | mainPostWeather d => exact ⟨_, rfl⟩
  | mainPostAirQuality d => exact ⟨_, rfl⟩
  | getData deviceId limit => exact ⟨[], by simp [stepStore]⟩

/-! ## The claims -/

/-- C1: the spec claims that for every valid payload, ingesting it and then
querying the device returns the millisecond timestamp unchanged — that the
composition of `datetime.utcfromtimestamp(t/1000)` with
`int((dt - epoch).total_seconds() * 1000)` is the identity.  It is not: at
t = 68662875446 ms the ingest conversion stores the datetime exactly
(68662875446000 µs), but the query conversion computes
`total_seconds() * 1000` = 68662875445.99999… in binary64 and `int`
truncates it to 68662875445, one millisecond short; the full
ingest-then-query pipeline returns 68662875445 for this payload. -/
theorem c1_roundtrip_not_identity :
    appMainStoredUs 68662875446 = 68662875446000 ∧
    timestampMsOfUs (appMainStoredUs 68662875446) = 68662875445 ∧
    (get_device_data (receive_traffic_data [] c1Payload).1 "dev-1" 100).map
      (List.map OutRecord.timestamp) = .ok [68662875445] ∧
    (68662875445 : Int) ≠ 68662875446 := by
  refine ⟨?_, ?_, ?_, by decide⟩
  · with_unfolding_all decide
  · with_unfolding_all decide
  · with_unfolding_all rfl

/-- C2: the spec claims a query that finds zero records yields a 404.  In
the code the `HTTPException(404)` is raised inside the `try` block whose
`except Exception` clause catches it (HTTPException subclasses Exception)
and re-raises a 500 whose detail is `str(e)`: for every store holding no
record of the queried device and every non-negative limit, the response is
a 500 carrying "404: Dispositivo no encontrado", never a 404. -/
theorem c2_empty_result_becomes_500 (store : List Document) (deviceId : String)
    (limit : Int) (hlim : 0 ≤ limit) (hempty : mongoFind store deviceId = []) :
    get_device_data store deviceId limit =
      .error { statusCode := 500, detail := "404: Dispositivo no encontrado" } := by
  unfold get_device_data
  rw [get_device_data_try_of_nonneg (not_lt.mpr hlim), hempty]
  have hsort : mongoSortTimestampDesc [] = [] := rfl
  have hlim0 : mongoLimit limit [] = [] := by
    unfold mongoLimit
    split_ifs <;> simp
  rw [hsort, hlim0, List.take_nil,
    if_pos (show ([] : List Document).isEmpty = true from rfl)]
  rfl

/-- Witness for C2: querying device `dev-1` against the empty store with
the default limit produces the 500, not a 404. -/
theorem c2_empty_result_becomes_500_witness :
    get_device_data [] "dev-1" 100 =
      .error { statusCode := 500, detail := "404: Dispositivo no encontrado" } :=
  c2_empty_result_becomes_500 [] "dev-1" 100 (by decide) rfl

/-- C3 counterexample: the claim says the returned list is ordered
STRICTLY by descending timestamp.  With two stored records of the same
device carrying equal timestamps, the query succeeds and returns a list
that is not strictly descending. -/
theorem c3_strict_descent_fails :
    ∃ rs, get_device_data [c3DocA, c3DocB] "dev-1" 2 = .ok rs ∧
      ¬ List.Chain' (fun a b : OutRecord => b.timestamp < a.timestamp) rs := by
  refine ⟨[convertItem c3DocA, convertItem c3DocB], ?_, ?_⟩
  · with_unfolding_all rfl
  · intro hchain
    rw [List.chain'_cons] at hchain
    have h1 : (convertItem c3DocA).timestamp = 5000 := by with_unfolding_all decide
    have h2 : (convertItem c3DocB).timestamp = 5000 := by with_unfolding_all decide
    have hlt := hchain.1
    rw [h1, h2] at hlt
    exact absurd hlt (by decide)

/-- C3 (amended): every successful query returns at most `limit` records,
ordered by non-increasing (weakly descending) timestamp; strictness fails
exactly when two returned records share a timestamp. -/
theorem c3_at_most_limit_weakly_descending (store : List Document) (deviceId : String)
    (limit : Int) (rs : List OutRecord)
    (h : get_device_data store deviceId limit = .ok rs) :
    (rs.length : Int) ≤ limit ∧
    List.Chain' (fun a b : OutRecord => b.timestamp ≤ a.timestamp) rs := by
  obtain ⟨hlim, hrs⟩ := get_device_data_ok h
  constructor
  · have hlen : rs.length ≤ limit.toNat := by
      subst hrs
      rw [List.length_map]
      exact List.length_take_le _ _
    have h2 : (limit.toNat : ℤ) = limit := Int.toNat_of_nonneg hlim
    omega
  · subst hrs
    apply List.Pairwise.chain'
    exact List.Pairwise.map _ (fun a b hab => timestampMsOfUs_mono hab)
      (List.Pairwise.sublist ((List.take_sublist _ _).trans (mongoLimit_sublist _ _))
        (mongoSort_sorted _))

/-- Witness for C3 (amended): a concrete one-document query returns one
record (≤ limit 1) in weakly descending order. -/
theorem c3_at_most_limit_weakly_descending_witness :
    (([convertItem c3DocA] : List OutRecord).length : Int) ≤ 1 ∧
    List.Chain' (fun a b : OutRecord => b.timestamp ≤ a.timestamp) [convertItem c3DocA] :=
  c3_at_most_limit_weakly_descending [c3DocA] "dev-1" 1 [convertItem c3DocA]
    (by with_unfolding_all rfl)

/-- C4 counterexample: the claim says every successful ingest on either
module returns HTTP 201.  `main.py`'s POST handlers carry no
`status_code` in their decorators, so they return FastAPI's default 200:
a successful ingest through `main.py`'s environmental endpoint does not
return 201. -/
theorem c4_main_returns_200_not_201 :
    (main_receive_environmental_data [] c4Payload).2.statusCode = 200 ∧
    (main_receive_environmental_data [] c4Payload).2.statusCode ≠ 201 :=
  ⟨rfl, by decide⟩

/-- C4 (amended): every successful ingest returns `{status: "success",
deviceId}` with the payload's device identifier; the four `app_main.py`
endpoints return it with status 201, while `main.py`'s three endpoints
(`main.py` has no `/traffic-data/` route) return it with the default
status 200. -/
theorem c4_post_status_and_body (store : List Document) :
    (∀ d : TrafficData, (receive_traffic_data store d).2 =
      { statusCode := 201, body := { status := "success", deviceId := d.deviceId } }) ∧
    (∀ d : EnvironmentalData, (receive_environmental_data store d).2 =
      { statusCode := 201, body := { status := "success", deviceId := d.deviceId } }) ∧
    (∀ d : WeatherData, (receive_weather_data store d).2 =
      { statusCode := 201, body := { status := "success", deviceId := d.deviceId } }) ∧
    (∀ d : AirQualityData, (receive_airquality_data store d).2 =
      { statusCode := 201, body := { status := "success", deviceId := d.deviceId } }) ∧
    (∀ d : EnvironmentalData, (main_receive_environmental_data store d).2 =
      { statusCode := 200, body := { status := "success", deviceId := d.deviceId } }) ∧
    (∀ d : WeatherData, (main_receive_weather_data store d).2 =
      { statusCode := 200, body := { status := "success", deviceId := d.deviceId } }) ∧
    (∀ d : AirQualityData, (main_receive_airquality_data store d).2 =
      { statusCode := 200, body := { status := "success", deviceId := d.deviceId } }) :=
  ⟨fun _ => rfl, fun _ => rfl, fun _ => rfl, fun _ => rfl,
   fun _ => rfl, fun _ => rfl, fun _ => rfl⟩

/-- C5 counterexample: the claim says ingest in either module stores a
record tagged with its category.  `main.py`'s handlers insert
`data.dict()` with only the timestamp rewritten — no `data_type` is added:
the document stored for a weather payload through `main.py` carries no
category tag. -/
theorem c5_main_stores_no_category_tag :
    ∃ doc : Document, (main_receive_weather_data [] c5Payload).1 = [doc] ∧
      doc.data_type = none :=
  ⟨_, rfl, rfl⟩

/-- C5 (amended): `app_main.py`'s endpoints store the inserted document
with `data_type` set to the category ("traffic", "environmental",
"weather", "air_quality"), while `main.py`'s endpoints store the document
with no category tag at all. -/
theorem c5_category_tagging (store : List Document) :
    (∀ d : TrafficData, ∃ doc : Document,
      (receive_traffic_data store d).1 = store ++ [doc] ∧
      doc.data_type = some "traffic" ∧ doc.deviceId = d.deviceId) ∧
    (∀ d : EnvironmentalData, ∃ doc : Document,
      (receive_environmental_data store d).1 = store ++ [doc] ∧
      doc.data_type = some "environmental" ∧ doc.deviceId = d.deviceId) ∧
    (∀ d : WeatherData, ∃ doc : Document,
      (receive_weather_data store d).1 = store ++ [doc] ∧
      doc.data_type = some "weather" ∧ doc.deviceId = d.deviceId) ∧
    (∀ d : AirQualityData, ∃ doc : Document,
      (receive_airquality_data store d).1 = store ++ [doc] ∧
      doc.data_type = some "air_quality" ∧ doc.deviceId = d.deviceId) ∧
    (∀ d : EnvironmentalData, ∃ doc : Document,
      (main_receive_environmental_data store d).1 = store ++ [doc] ∧
      doc.data_type = none ∧ doc.deviceId = d.deviceId) ∧
    (∀ d : WeatherData, ∃ doc : Document,
      (main_receive_weather_data store d).1 = store ++ [doc] ∧
      doc.data_type = none ∧ doc.deviceId = d.deviceId) ∧
    (∀ d : AirQualityData, ∃ doc : Document,
      (main_receive_airquality_data store d).1 = store ++ [doc] ∧
      doc.data_type = none ∧ doc.deviceId = d.deviceId) :=
  ⟨fun _ => ⟨_, rfl, rfl, rfl⟩, fun _ => ⟨_, rfl, rfl, rfl⟩,
   fun _ => ⟨_, rfl, rfl, rfl⟩, fun _ => ⟨_, rfl, rfl, rfl⟩,
   fun _ => ⟨_, rfl, rfl, rfl⟩, fun _ => ⟨_, rfl, rfl, rfl⟩,
   fun _ => ⟨_, rfl, rfl, rfl⟩⟩

/-- C6: the stored-timestamp normalization is identical in the two
modules: for every integer millisecond timestamp, `app_main.py`'s
`insert_sensor_data` and `main.py`'s POST handlers store the same
datetime. -/
theorem c6_identical_normalization : ∀ t : Int, appMainStoredUs t = mainStoredUs t :=
  fun _ => rfl

/-- C7: no operation updates or deletes an existing record: after any
sequence of ingest and query requests the store is the original store
with only new documents appended (queries write nothing, inserts only
append). -/
theorem c7_records_never_updated_or_deleted :
    ∀ (ops : List Op) (store : List Document),
      ∃ tail, runOps store ops = store ++ tail := by
  intro ops
  induction ops with
  | nil => exact fun store => ⟨[], by simp [runOps]⟩
  | cons op ops ih =>
    intro store
    obtain ⟨t1, h1⟩ := stepStore_appends store op
    obtain ⟨t2, h2⟩ := ih (stepStore store op)
    refine ⟨t1 ++ t2, ?_⟩
    rw [runOps, h2, h1, List.append_assoc]

/-- C8: every record returned by a successful query is the conversion of a
stored document, and its `_id` field is that document's store identifier
rendered as a string. -/
theorem c8_id_returned_as_string (store : List Document) (deviceId : String)
    (limit : Int) (rs : List OutRecord)
    (h : get_device_data store deviceId limit = .ok rs) :
    ∀ r ∈ rs, ∃ d ∈ store, r = convertItem d ∧ r.idStr = toString d.oid := by
  obtain ⟨hlim, hrs⟩ := get_device_data_ok h
  subst hrs
  intro r hr
  obtain ⟨d, hd, rfl⟩ := List.mem_map.mp hr
  have hd2 : d ∈ mongoSortTimestampDesc (mongoFind store deviceId) :=
    ((List.take_sublist _ _).trans (mongoLimit_sublist _ _)).subset hd
  have hd3 : d ∈ mongoFind store deviceId := (List.perm_insertionSort _ _).subset hd2
  have hd4 : d ∈ store := List.mem_of_mem_filter hd3
  exact ⟨d, hd4, rfl, rfl⟩

/-- Witness for C8: the single record returned for `dev-4` is the
conversion of the stored document and exposes `_id` as its string
rendering. -/
theorem c8_id_returned_as_string_witness :
    ∃ d ∈ [c8Doc], convertItem c8Doc = convertItem d ∧
      (convertItem c8Doc).idStr = toString d.oid :=
  c8_id_returned_as_string [c8Doc] "dev-4" 5 [convertItem c8Doc]
    (by with_unfolding_all rfl) (convertItem c8Doc) (by simp)

/-- C9: omitting the `limit` query parameter behaves exactly as
`limit = 100`: the handler signature declares `limit: int = 100`. -/
theorem c9_default_limit_100 (store : List Document) (deviceId : String) :
    get_device_data_default store deviceId = get_device_data store deviceId 100 :=
  rfl

/-- C10: with `limit = 0`, `to_list(length=0)` materializes the empty
list whatever the store holds, so the zero-records branch is taken and
the not-found `HTTPException(404)` is raised even when matching records
exist; the surrounding catch-all then surfaces it as the 500 of C2. -/
theorem c10_limit_zero_always_empty (store : List Document) (deviceId : String) :
    get_device_data_try store deviceId 0 =
      .error (.httpException 404 "Dispositivo no encontrado") ∧
    get_device_data store deviceId 0 =
      .error { statusCode := 500, detail := "404: Dispositivo no encontrado" } :=
  ⟨rfl, rfl⟩
